import Mathlib

/-!
Verification of the Nexura spam-classification engine against its
natural-language specification.

The repository under `src/` contains the React Native client
(`src/frontend/...`), the screens (`src/unnamed/...`), and the backend
documentation (`src/docs/API.md`, `src/docs/ARCHITECTURE.md`).  The FastAPI
backend itself (the SpamDetector / MessageService / UserService pipeline) is
not present in the repository; components of the pipeline are therefore
modelled from the specification (their definitions are marked
`Modelled from the spec:` below), while everything that does exist in the
client sources (SMSDetectionService, CallDetectionService, TopSpamScreen,
the documented default settings in API.md) is translated directly from those
sources.

Confidences, thresholds and spam scores are modelled as rationals.
-/

namespace Nexura

/-- Spam categories, from the closed enum in `src/docs/API.md` (Spam
Categories table) and spec section 3. -/
inductive Category where
  | safe
  | betting
  | phishing
  | scam
  | malware
  | promotional
  | fraud
  | lottery
  | investment
  | other
  deriving DecidableEq

/-- Risk levels, from `src/docs/API.md` (Risk Levels table) and spec section 3. -/
inductive RiskLevel where
  | low
  | medium
  | high
  | critical
  deriving DecidableEq

/-- Recommended actions, from spec section 3. -/
inductive RecommendedAction where
  | allow
  | warn
  | block
  deriving DecidableEq

/-- User feedback values, from `MessageAPI.provideFeedback`
(`src/frontend/src/services/CallDetectionService.ts`, api part, line 523). -/
inductive Feedback where
  | correct
  | incorrect
  | unsure
  deriving DecidableEq

/-- The verdict attached to a message: the `SpamAnalysis` interface of the
client api (`src/frontend/src/services/CallDetectionService.ts`, api part,
lines 412-420) and spec section 3. -/
structure SpamAnalysis where
  is_spam : Bool
  confidence : ℚ
  category : Category
  risk_level : RiskLevel
  explanation : String
  detected_patterns : List String
  recommended_action : RecommendedAction
  deriving DecidableEq

/-- Whitelist/blacklist entry types, from spec section 4.2. -/
inductive EntryType where
  | phone
  | email
  | keyword
  deriving DecidableEq

/-- A whitelist/blacklist entry (spec section 3; `BlacklistEntry` in
`src/unnamed/part_002`).  `reason_category` is the blacklist entry's stored
reason-category consumed by the Override Matcher (spec section 4.2). -/
structure ListEntry where
  value : String
  entry_type : EntryType
  reason_category : Option Category
  deriving DecidableEq

/-- Per-user policy consumed by the pipeline (spec section 3; Settings
collection in `src/docs/ARCHITECTURE.md` lines 151-170). -/
structure UserPolicy where
  auto_block_spam : Bool
  auto_block_threshold : ℚ
  block_categories : List Category
  whitelist : List ListEntry
  blacklist : List ListEntry
  deriving DecidableEq

/-- Digits-only normalization of a phone value (spec section 4.2: phone
numbers normalized to an E.164-equivalent digits-only form). -/
def normalizePhone (s : String) : String :=
  String.mk (s.toList.filter Char.isDigit)

/-- The characters of a string, lowercased. -/
def lowerChars (s : String) : List Char :=
  s.toList.map Char.toLower

/-- Lowercasing normalization of an email value (spec section 4.2). -/
def normalizeEmail (s : String) : String :=
  String.mk (lowerChars s)

/-- Does the character sequence `hay` start with `needle`? -/
def leadMatch : List Char → List Char → Bool
  | [], _ => true
  | _ :: _, [] => false
  | a :: as, b :: bs => a == b && leadMatch as bs

/-- Does the character sequence `hay` contain `needle` as a contiguous run? -/
def containsSeq (needle : List Char) : List Char → Bool
  | [] => needle.isEmpty
  | b :: bs => leadMatch needle (b :: bs) || containsSeq needle bs

/-- Case-insensitive substring test of a keyword against message content
(spec section 4.2). -/
def keywordInContent (kw content : String) : Bool :=
  containsSeq (lowerChars kw) (lowerChars content)

/-- Modelled from the spec: identity matching of the backend Override Matcher
(spec section 4.2), whose code (FastAPI `app/services`) is not under `src/`.
An entry of type phone/email matches the sender identity by exact value after
normalization; keyword entries never match on identity. -/
def identityMatches (sender : Option String) (e : Nexura.ListEntry) : Bool :=
  match sender with
  | none => false
  | some s =>
    match e.entry_type with
    | .phone => normalizePhone s == normalizePhone e.value
    | .email => normalizeEmail s == normalizeEmail e.value
    | .keyword => false

/-- Modelled from the spec: keyword matching of the backend Override Matcher
(spec section 4.2): case-insensitive substring match of keyword entries
against the message content. -/
def keywordMatches (content : String) (e : Nexura.ListEntry) : Bool :=
  match e.entry_type with
  | .keyword => keywordInContent e.value content
  | _ => false

/-- Result of the Override Matcher (spec section 4.2). -/
inductive OverrideResult where
  | whitelistHit
  | blacklistHit (reason_category : Option Nexura.Category)
  | noMatch
  deriving DecidableEq

/-- Modelled from the spec: the backend Override Matcher (spec section 4.2),
whose code is not under `src/`.  Identity-type matches in either list are
consulted before keyword matches, and the whitelist beats the blacklist. -/
def matchOverride (sender : Option String) (content : String)
    (p : Nexura.UserPolicy) : OverrideResult :=
  if p.whitelist.any (identityMatches sender) then .whitelistHit
  else
    match p.blacklist.find? (identityMatches sender) with
    | some e => .blacklistHit e.reason_category
    | none =>
      if p.whitelist.any (keywordMatches content) then .whitelistHit
      else
        match p.blacklist.find? (keywordMatches content) with
        | some e => .blacklistHit e.reason_category
        | none => .noMatch

/-- Modelled from the spec: derivation of the risk level from confidence and
category severity (spec section 3: risk level is monotonically derived from
confidence and category, never set independently; the backend derivation code
is not under `src/`). -/
def deriveRisk (conf : ℚ) (cat : Nexura.Category) : Nexura.RiskLevel :=
  if cat = .safe then .low
  else if mkRat 9 10 ≤ conf then .critical
  else if mkRat 7 10 ≤ conf then .high
  else if mkRat 4 10 ≤ conf then .medium
  else .low

/-- Derivation of the recommended action from the risk level, from the Risk
Levels table of `src/docs/API.md` lines 416-423 (low: allow, medium: warn,
high: block, critical: immediately block). -/
def deriveAction (r : Nexura.RiskLevel) : Nexura.RecommendedAction :=
  match r with
  | .low => .allow
  | .medium => .warn
  | .high => .block
  | .critical => .block

/-- Modelled from the spec: the verdict forced by a whitelist hit (spec
section 4.2; backend code not under `src/`). -/
def whitelistAnalysis : Nexura.SpamAnalysis :=
  { is_spam := false
    confidence := 1
    category := .safe
    risk_level := .low
    explanation := "Sender is whitelisted"
    detected_patterns := []
    recommended_action := .allow }

/-- Modelled from the spec: the verdict forced by a blacklist hit (spec
section 4.2; backend code not under `src/`): spam with confidence 1.0,
category from the entry's stored reason-category if present else other, and
a forced block. -/
def blacklistAnalysis (rc : Option Nexura.Category) : Nexura.SpamAnalysis :=
  let cat := rc.getD .other
  { is_spam := true
    confidence := 1
    category := cat
    risk_level := deriveRisk 1 cat
    explanation := "Sender is blacklisted"
    detected_patterns := []
    recommended_action := .block }

/-- A deterministic local detector of the Pattern Classifier: a named signal
with a category tag, a confidence contribution, and the keyword set that
fires it (spec section 4.3). -/
structure Detector where
  label : String
  category : Nexura.Category
  weight : ℚ
  keywords : List String
  deriving DecidableEq

/-- Modelled from the spec: the ordered battery of deterministic detectors of
the backend Pattern Classifier (spec section 4.3; backend code not under
`src/`).  The concrete signals follow the documented examples: the
regulatory-betting keyword set caught with high confidence (spec section 4.3
and the worked example of `src/docs/API.md` lines 100-129, confidence 0.95
with detected patterns "bahis" and "kazan"), plus weaker promotional and
lottery signals that stay below the 0.9 short-circuit bound. -/
def detectorBattery : List Detector :=
  [ { label := "bahis", category := .betting, weight := mkRat 95 100, keywords := ["bahis"] }
  , { label := "kazan", category := .betting, weight := mkRat 95 100, keywords := ["kazan"] }
  , { label := "odul", category := .lottery, weight := mkRat 6 10, keywords := ["cekilis", "odul kazandiniz"] }
  , { label := "indirim", category := .promotional, weight := mkRat 4 10, keywords := ["indirim", "kampanya"] } ]

/-- Does a detector fire on the given text (case-insensitive keyword
substring match, spec section 4.3)? -/
def fires (text : String) (d : Detector) : Bool :=
  d.keywords.any (fun kw => keywordInContent kw text)

/-- The detectors of the battery that fire on the given text, in battery
order. -/
def firedDetectors (text : String) : List Detector :=
  detectorBattery.filter (fires text)

/-- The fired detector of maximum confidence contribution (first one on
ties, since detectors run in order); none if no detector fires.  Spec
section 4.3: the maximum confidence, not the sum, determines the overall
confidence. -/
def strongestFired (text : String) : Option Detector :=
  (firedDetectors text).foldl
    (fun best d =>
      match best with
      | none => some d
      | some b => if b.weight < d.weight then some d else best)
    none

/-- Modelled from the spec: the backend Pattern Classifier (spec section 4.3;
backend code not under `src/`).  Pure and deterministic; if no detector
fires it returns is_spam false, confidence 0, category safe; otherwise the
maximum fired confidence and that detector's category, with the fired signal
labels as detected patterns. -/
def patternClassify (text : String) : Nexura.SpamAnalysis :=
  match strongestFired text with
  | none =>
    { is_spam := false
      confidence := 0
      category := .safe
      risk_level := .low
      explanation := "No local pattern matched"
      detected_patterns := []
      recommended_action := .allow }
  | some d =>
    let risk := deriveRisk d.weight d.category
    { is_spam := true
      confidence := d.weight
      category := d.category
      risk_level := risk
      explanation := "Local pattern match"
      detected_patterns := (firedDetectors text).map Detector.label
      recommended_action := deriveAction risk }

/-- Modelled from the spec: strict schema validation of an oracle response
(spec section 4.4: out-of-range confidence or data not describable by the
section 3 schema — where the recommended action is derived from the risk
level, not independently chosen — is treated as a terminal failure). -/
def isValidResponse (a : Nexura.SpamAnalysis) : Bool :=
  decide (0 ≤ a.confidence) && decide (a.confidence ≤ 1) &&
    (a.recommended_action == deriveAction a.risk_level)

/-- Outcome of a single oracle inference attempt (spec section 4.4): a
response, or one of the transient failures (timeout, 5xx, rate limit). -/
inductive OracleOutcome where
  | ok (a : Nexura.SpamAnalysis)
  | timeout
  | unavailable
  | rateLimited
  deriving DecidableEq

/-- Strict response parsing: a response that fails schema validation is
dropped (spec section 4.4: never propagate malformed data). -/
def parseResponse (a : Nexura.SpamAnalysis) : Option Nexura.SpamAnalysis :=
  if isValidResponse a then some a else none

/-- Modelled from the spec: the backend Oracle Classifier's retry loop (spec
section 4.4; backend code not under `src/`).  The oracle is a function from
the attempt number to that attempt's outcome.  At most one retry, and only
on transient failure; a malformed response is terminal at once; a second
failure is terminal.  Returns none on terminal failure. -/
def runOracle (oracle : Nat → OracleOutcome) : Option Nexura.SpamAnalysis :=
  match oracle 0 with
  | .ok a => parseResponse a
  | _ =>
    match oracle 1 with
    | .ok a => parseResponse a
    | _ => none

/-- Ninety-nine hundredths of a rational: the definite cap strictly below
the auto-block threshold used by the fail-open path (spec section 4.4; the
threshold is positive, spec section 3 bounds it inside [0.5, 1.0]). -/
def capBelow (q : ℚ) : ℚ :=
  mkRat (q.num * 99) (q.den * 100)

/-- Modelled from the spec: the fail-open verdict built from the Pattern
Classifier's local evidence after terminal oracle failure (spec section 4.4;
backend code not under `src/`): confidence capped strictly below the user's
auto-block threshold, category other if no local category fired, and an
explanation noting degraded analysis. -/
def failOpen (p : Nexura.UserPolicy) (pat : Nexura.SpamAnalysis) :
    Nexura.SpamAnalysis :=
  let conf := min pat.confidence (capBelow p.auto_block_threshold)
  let cat : Nexura.Category := if pat.category = .safe then .other else pat.category
  let risk := deriveRisk conf cat
  { is_spam := pat.is_spam
    confidence := conf
    category := cat
    risk_level := risk
    explanation := "Degraded analysis: oracle unavailable"
    detected_patterns := pat.detected_patterns
    recommended_action := deriveAction risk }

/-- Modelled from the spec: the auto-block gate of the Decision Aggregator
(spec section 4.5; backend code not under `src/`): blocked iff spam, the
user's auto-block setting is on, confidence reaches the threshold, and the
category is one of the user's blocked categories. -/
def autoBlock (p : Nexura.UserPolicy) (a : Nexura.SpamAnalysis) : Bool :=
  a.is_spam && p.auto_block_spam &&
    decide (p.auto_block_threshold ≤ a.confidence) &&
    decide (a.category ∈ p.block_categories)

/-- The output of one classification call: the persisted verdict, the
persisted blocked flag, and audit metadata recording whether the Oracle
Classifier was invoked (spec sections 2 and 4.5). -/
structure ClassifyOutput where
  analysis : Nexura.SpamAnalysis
  is_blocked : Bool
  oracle_called : Bool
  deriving DecidableEq

/-- Modelled from the spec: the backend classification pipeline (spec
section 2 control flow and sections 4.2-4.5; backend code not under `src/`):
Override Matcher (short-circuits on hit, whitelist forcing blocked false and
blacklist forcing blocked true), then Pattern Classifier (final when its
confidence reaches 0.9), then Oracle Classifier with fail-open on terminal
failure, then the auto-block gate. -/
def classifyValid (oracle : Nat → OracleOutcome) (sender : Option String)
    (content : String) (p : Nexura.UserPolicy) : ClassifyOutput :=
  match matchOverride sender content p with
  | .whitelistHit =>
    { analysis := whitelistAnalysis, is_blocked := false, oracle_called := false }
  | .blacklistHit rc =>
    { analysis := blacklistAnalysis rc, is_blocked := true, oracle_called := false }
  | .noMatch =>
    if mkRat 9 10 ≤ (patternClassify content).confidence then
      { analysis := patternClassify content
        is_blocked := autoBlock p (patternClassify content)
        oracle_called := false }
    else
      match runOracle oracle with
      | some a =>
        { analysis := a, is_blocked := autoBlock p a, oracle_called := true }
      | none =>
        { analysis := failOpen p (patternClassify content)
          is_blocked := autoBlock p (failOpen p (patternClassify content))
          oracle_called := true }

/-- Errors a single classification call can surface (spec section 7): only
empty content is fatal to the request. -/
inductive ClassifyError where
  | invalidInput
  deriving DecidableEq

/-- Modelled from the spec: the classification entry point (spec sections 6
and 7; backend code not under `src/`).  Empty content is rejected with
InvalidInput and no record is created; otherwise a complete verdict is
always returned. -/
def classify (oracle : Nat → OracleOutcome) (sender : Option String)
    (content : String) (p : Nexura.UserPolicy) :
    Except ClassifyError ClassifyOutput :=
  if content = "" then .error .invalidInput
  else .ok (classifyValid oracle sender content p)

/-- The documented default user policy, translated from the Get Settings
response documented in `src/docs/API.md` lines 254-268: auto_block_spam
true, auto_block_threshold 0.8, block_categories betting, phishing, scam,
malware, fraud, and empty whitelist and blacklist. -/
def defaultPolicy : Nexura.UserPolicy :=
  { auto_block_spam := true
    auto_block_threshold := mkRat 8 10
    block_categories := [.betting, .phishing, .scam, .malware, .fraud]
    whitelist := []
    blacklist := [] }

/-- Modelled from the spec: the backend Config Resolver (spec section 4.1;
backend code not under `src/`): given a user identifier it returns the
stored policy, or the documented default policy (`src/docs/API.md` lines
254-268) if none exists yet. -/
def resolvePolicy (stored : String → Option Nexura.UserPolicy)
    (uid : String) : Nexura.UserPolicy :=
  (stored uid).getD defaultPolicy

/-- One request of a bulk classification call (spec section 6). -/
structure BulkRequest where
  content : String
  sender : Option String
  deriving DecidableEq

/-- The response shape of bulk classification (spec section 6;
`MessageAPI.analyzeBulk` in `src/frontend/src/services/CallDetectionService.ts`,
api part, lines 494-507). -/
structure BulkOutput where
  total : Nat
  spam_count : Nat
  safe_count : Nat
  results : List ClassifyOutput
  deriving DecidableEq

/-- Modelled from the spec: the per-message result list of bulk analysis
(spec section 5: each message runs through the full pipeline independently;
backend code not under `src/`).  `oracles i` is the oracle behaviour seen by
the message at position `i`. -/
def bulkResults (oracles : Nat → Nat → OracleOutcome) (p : Nexura.UserPolicy) :
    List BulkRequest → Nat → List ClassifyOutput
  | [], _ => []
  | m :: rest, i =>
    classifyValid (oracles i) m.sender m.content p :: bulkResults oracles p rest (i + 1)

/-- Modelled from the spec: bulk classification (spec sections 5 and 6;
backend code not under `src/`): order-preserving results with total,
spam_count and safe_count aggregates. -/
def analyzeBulk (oracles : Nat → Nat → OracleOutcome)
    (msgs : List BulkRequest) (p : Nexura.UserPolicy) : BulkOutput :=
  let results := bulkResults oracles p msgs 0
  { total := results.length
    spam_count := results.countP (fun r => r.analysis.is_spam)
    safe_count := results.countP (fun r => !r.analysis.is_spam)
    results := results }

/-- A persisted Message record, reduced to the fields the feedback state
machine touches (spec sections 3 and 4.5; the `Message` interface of the
client api, `src/frontend/src/services/CallDetectionService.ts` api part,
lines 422-432). -/
structure StoredMessage where
  id : String
  output : ClassifyOutput
  user_feedback : Option Feedback
  deriving DecidableEq

/-- Modelled from the spec: creation of a persisted Message record by a
classification call (spec section 4.5; backend code not under `src/`): a
fresh record starts with no user feedback. -/
def persistMessage (mid : String) (o : ClassifyOutput) : StoredMessage :=
  { id := mid, output := o, user_feedback := none }

/-- Errors of the feedback endpoint (spec section 6): NotFound when the
message id is unknown. -/
inductive ApiError where
  | notFound
  deriving DecidableEq

/-- Modelled from the spec: the feedback endpoint (spec sections 4.5 and 6;
backend `PATCH /messages/id/feedback`, code not under `src/`): it overwrites
the stored feedback of the addressed record in place (last write wins,
re-submission is not an error, no second record is created), and fails with
NotFound when the id is unknown. -/
def provideFeedback (store : List StoredMessage) (mid : String)
    (fb : Feedback) : Except ApiError (List StoredMessage) :=
  if store.any (fun m => m.id == mid) then
    .ok (store.map (fun m =>
      if m.id == mid then { m with user_feedback := some fb } else m))
  else .error .notFound

/-- The stored feedback value of the record with the given id, if any. -/
def feedbackOf (store : List StoredMessage) (mid : String) :
    Option (Option Feedback) :=
  (store.find? (fun m => m.id == mid)).map StoredMessage.user_feedback

/-- The client-side Message record returned by `MessageAPI.analyze`
(`Message` interface, `src/frontend/src/services/CallDetectionService.ts`
api part, lines 422-432), as consumed by the SMS detection service. -/
structure ClientMessage where
  id : String
  content : String
  sender : Option String
  source : String
  analysis : Nexura.SpamAnalysis
  is_blocked : Bool
  user_feedback : Option Feedback
  deriving DecidableEq

/-- A detected-SMS history record (`DetectedSMS` interface,
`src/frontend/src/services/SMSDetectionService.ts` lines 30-37). -/
structure DetectedSMS where
  id : String
  sender : String
  content : String
  analysis : ClientMessage
  timestamp : String
  blocked : Bool
  deriving DecidableEq

/-- The record construction of
`SMSDetectionService.handleIncomingSMS`
(`src/frontend/src/services/SMSDetectionService.ts` lines 178-191): the
record is created with blocked false, then blocked is set true exactly when
auto-block is enabled and the analysis reports spam. -/
def SMSDetectionService.buildDetectedSMS (sms_id sender content timestamp : String)
    (analysis : ClientMessage) (autoBlockEnabled : Bool) : DetectedSMS :=
  { id := sms_id
    sender := sender
    content := content
    analysis := analysis
    timestamp := timestamp
    blocked := autoBlockEnabled && analysis.analysis.is_spam }

/-- `SMSDetectionService.getSpamCount`
(`src/frontend/src/services/SMSDetectionService.ts` lines 307-315): the
number of history records whose analysis reports spam. -/
def SMSDetectionService.getSpamCount (history : List DetectedSMS) : Nat :=
  (history.filter (fun sms => sms.analysis.analysis.is_spam)).length

/-- `SMSDetectionService.getBlockedCount`
(`src/frontend/src/services/SMSDetectionService.ts` lines 320-328): the
number of history records marked blocked. -/
def SMSDetectionService.getBlockedCount (history : List DetectedSMS) : Nat :=
  (history.filter (fun sms => sms.blocked)).length

/-- `CallDetectionService.getRiskLevel`
(`src/frontend/src/services/CallDetectionService.ts` lines 253-258). -/
def CallDetectionService.getRiskLevel (spamScore : ℚ) : String :=
  if 70 ≤ spamScore then "HIGH"
  else if 40 ≤ spamScore then "MODERATE"
  else if 20 ≤ spamScore then "LOW"
  else "MINIMAL"

/-- `TopSpamScreen`'s `getRiskLevel` (`src/unnamed/part_004` lines 417-421). -/
def TopSpamScreen.getRiskLevel (score : ℚ) : String :=
  if score < 30 then "Low"
  else if score < 70 then "High"
  else "Critical"

/-- Severity rank of the labels produced by
`CallDetectionService.getRiskLevel`: MINIMAL < LOW < MODERATE < HIGH. -/
def callRiskRank (label : String) : Nat :=
  if label = "MINIMAL" then 0
  else if label = "LOW" then 1
  else if label = "MODERATE" then 2
  else if label = "HIGH" then 3
  else 4

/-- Severity rank of the labels produced by `TopSpamScreen`'s
`getRiskLevel`: Low < Medium < High < Critical. -/
def topRiskRank (label : String) : Nat :=
  if label = "Low" then 0
  else if label = "Medium" then 1
  else if label = "High" then 2
  else if label = "Critical" then 3
  else 4

/-- A fixture oracle that times out on every attempt (used to instantiate
theorems at concrete inputs). -/
def oracleDown : Nat → OracleOutcome := fun _ => .timeout

/-- A fixture oracle that answers every attempt with a fixed safe verdict
(used to instantiate theorems at concrete inputs). -/
def oracleSafe : Nat → OracleOutcome := fun _ =>
  .ok
    { is_spam := false
      confidence := mkRat 97 100
      category := .safe
      risk_level := .low
      explanation := "Normal conversational message"
      detected_patterns := []
      recommended_action := .allow }

/-- A fixture policy whose whitelist holds one phone entry (used to
instantiate theorems at concrete inputs). -/
def wlPolicy : Nexura.UserPolicy :=
  { defaultPolicy with
      whitelist := [{ value := "+905551234567", entry_type := .phone, reason_category := none }] }

/-- A fixture policy whose blacklist holds one phone entry with stored
reason-category scam (used to instantiate theorems at concrete inputs). -/
def blPolicy : Nexura.UserPolicy :=
  { defaultPolicy with
      blacklist := [{ value := "+905559876543", entry_type := .phone, reason_category := some .scam }] }

/-- The auto-block gate, spelled out as a proposition. -/
theorem autoBlock_iff (p : Nexura.UserPolicy) (a : Nexura.SpamAnalysis) :
    autoBlock p a = true ↔
      a.is_spam = true ∧ p.auto_block_spam = true ∧
        p.auto_block_threshold ≤ a.confidence ∧
        a.category ∈ p.block_categories := by
  simp [autoBlock, Bool.and_eq_true, decide_eq_true_iff, and_assoc]

/-- The action derivation recommends block exactly at high or critical risk. -/
theorem deriveAction_eq_block (r : Nexura.RiskLevel) :
    deriveAction r = .block ↔ r = .high ∨ r = .critical := by
  cases r <;> simp [deriveAction]

/-- A response accepted by strict parsing passed validation. -/
theorem parseResponse_valid {b a : Nexura.SpamAnalysis}
    (h : parseResponse b = some a) : isValidResponse a = true := by
  unfold parseResponse at h
  by_cases hv : isValidResponse b = true
  · rw [if_pos hv] at h
    cases h
    exact hv
  · rw [if_neg hv] at h
    cases h

/-- A verdict surviving the oracle retry loop passed strict validation. -/
theorem runOracle_valid (oracle : Nat → OracleOutcome) (a : Nexura.SpamAnalysis)
    (h : runOracle oracle = some a) : isValidResponse a = true := by
  unfold runOracle at h
  cases h0 : oracle 0 with
  | ok b =>
    rw [h0] at h
    exact parseResponse_valid h
  | timeout =>
    rw [h0] at h
    cases h1 : oracle 1 with
    | ok b => rw [h1] at h; exact parseResponse_valid h
    | timeout => rw [h1] at h; cases h
    | unavailable => rw [h1] at h; cases h
    | rateLimited => rw [h1] at h; cases h
  | unavailable =>
    rw [h0] at h
    cases h1 : oracle 1 with
    | ok b => rw [h1] at h; exact parseResponse_valid h
    | timeout => rw [h1] at h; cases h
    | unavailable => rw [h1] at h; cases h
    | rateLimited => rw [h1] at h; cases h
  | rateLimited =>
    rw [h0] at h
    cases h1 : oracle 1 with
    | ok b => rw [h1] at h; exact parseResponse_valid h
    | timeout => rw [h1] at h; cases h
    | unavailable => rw [h1] at h; cases h
    | rateLimited => rw [h1] at h; cases h

/-- C1: for every classified message the persisted blocked flag follows the
Decision Aggregator policy: on the no-override path it is true exactly when
the verdict is spam, the user's auto-block setting is on, the confidence
reaches the auto-block threshold, and the category is one of the user's
blocked categories; a whitelist hit forces it false and a blacklist hit
forces it true, bypassing the threshold/category gate. -/
theorem classify_blocked_policy (oracle : Nat → OracleOutcome)
    (sender : Option String) (content : String) (p : Nexura.UserPolicy) :
    (matchOverride sender content p = .whitelistHit →
      (classifyValid oracle sender content p).is_blocked = false) ∧
    (∀ rc, matchOverride sender content p = .blacklistHit rc →
      (classifyValid oracle sender content p).is_blocked = true) ∧
    (matchOverride sender content p = .noMatch →
      ((classifyValid oracle sender content p).is_blocked = true ↔
        (classifyValid oracle sender content p).analysis.is_spam = true ∧
        p.auto_block_spam = true ∧
        p.auto_block_threshold ≤ (classifyValid oracle sender content p).analysis.confidence ∧
        (classifyValid oracle sender content p).analysis.category ∈ p.block_categories)) := by
  cases h : matchOverride sender content p with
  | whitelistHit =>
    refine ⟨fun _ => ?_, fun rc hrc => ?_, fun hnm => ?_⟩
    · simp [classifyValid, h]
    · cases hrc
    · cases hnm
  | blacklistHit rc =>
    refine ⟨fun hw => ?_, fun rc2 hrc => ?_, fun hnm => ?_⟩
    · cases hw
    · simp [classifyValid, h]
    · cases hnm
  | noMatch =>
    refine ⟨fun hw => ?_, fun rc2 hrc => ?_, fun _ => ?_⟩
    · cases hw
    · cases hrc
    · simp only [classifyValid, h]
      split
      · exact autoBlock_iff p (patternClassify content)
      · cases hro : runOracle oracle with
        | some a => simp only [hro]; exact autoBlock_iff p a
        | none => simp only [hro]; exact autoBlock_iff p (failOpen p (patternClassify content))

/-- C1 witness: a concrete spam message under the default policy is blocked,
through the no-override branch of the aggregator policy. -/
theorem classify_blocked_policy_witness :
    (classifyValid oracleDown none "Hemen bahis yap!" defaultPolicy).is_blocked = true :=
  ((classify_blocked_policy oracleDown none "Hemen bahis yap!" defaultPolicy).2.2
    (by decide)).mpr (by decide)

/-- C2: a message whose sender matches a whitelist identity entry gets the
forced verdict is_spam false, confidence 1.0, category safe, recommended
action allow, blocked false, and the oracle is never invoked — for every
content, so the verdict does not depend on the message body. -/
theorem whitelist_forces_safe (oracle : Nat → OracleOutcome)
    (sender : Option String) (content : String) (p : Nexura.UserPolicy)
    (h : p.whitelist.any (identityMatches sender) = true) :
    classifyValid oracle sender content p =
      { analysis := whitelistAnalysis, is_blocked := false, oracle_called := false } ∧
    whitelistAnalysis.is_spam = false ∧
    whitelistAnalysis.confidence = 1 ∧
    whitelistAnalysis.category = .safe ∧
    whitelistAnalysis.recommended_action = .allow := by
  have hm : matchOverride sender content p = .whitelistHit := by
    unfold matchOverride
    rw [if_pos h]
  exact ⟨by simp [classifyValid, hm], rfl, rfl, rfl, rfl⟩

/-- C2 witness: a concrete whitelisted sender with spammy content is still
forced safe and unblocked. -/
theorem whitelist_forces_safe_witness :
    classifyValid oracleDown (some "+905551234567") "Hemen bahis yap, kazan!" wlPolicy =
      { analysis := whitelistAnalysis, is_blocked := false, oracle_called := false } :=
  (whitelist_forces_safe oracleDown (some "+905551234567")
    "Hemen bahis yap, kazan!" wlPolicy (by decide)).1

/-- C3: when the Pattern Classifier reports confidence at least 0.9 the
Oracle Classifier is never invoked, and on the no-override path the pattern
candidate verdict is the final result. -/
theorem confident_pattern_skips_oracle (oracle : Nat → OracleOutcome)
    (sender : Option String) (content : String) (p : Nexura.UserPolicy)
    (h : mkRat 9 10 ≤ (patternClassify content).confidence) :
    (classifyValid oracle sender content p).oracle_called = false ∧
    (matchOverride sender content p = .noMatch →
      (classifyValid oracle sender content p).analysis = patternClassify content) := by
  cases hm : matchOverride sender content p with
  | whitelistHit => exact ⟨by simp [classifyValid, hm], fun hn => by cases hn⟩
  | blacklistHit rc => exact ⟨by simp [classifyValid, hm], fun hn => by cases hn⟩
  | noMatch =>
    constructor
    · simp [classifyValid, hm, h]
    · intro _
      simp [classifyValid, hm, h]

/-- C3 witness: on a concrete betting message the pattern confidence is
0.95, the oracle is skipped, and the pattern verdict is final. -/
theorem confident_pattern_skips_oracle_witness :
    (classifyValid oracleSafe none "bahis" defaultPolicy).oracle_called = false ∧
    (matchOverride none "bahis" defaultPolicy = .noMatch →
      (classifyValid oracleSafe none "bahis" defaultPolicy).analysis = patternClassify "bahis") :=
  confident_pattern_skips_oracle oracleSafe none "bahis" defaultPolicy (by decide)

/-- The fail-open cap is strictly below a positive threshold. -/
theorem capBelow_lt {q : ℚ} (hq : 0 < q) : capBelow q < q := by
  have hnum : (0:ℚ) < (q.num : ℚ) := by exact_mod_cast Rat.num_pos.mpr hq
  have hden : (0:ℚ) < (q.den : ℚ) := by exact_mod_cast q.den_pos
  have hkey : (q.num : ℚ) = q * (q.den : ℚ) :=
    (div_eq_iff (ne_of_gt hden)).mp (Rat.num_div_den q)
  unfold capBelow
  rw [Rat.mkRat_eq_divInt, Rat.divInt_eq_div]
  push_cast
  rw [div_lt_iff₀ (by positivity)]
  have hmul : q * ((q.den:ℚ) * 100) = (q.num:ℚ) * 100 := by
    rw [← mul_assoc, ← hkey]
  rw [hmul]
  linarith

/-- C4: on terminal oracle failure (no attempt survives the retry loop) the
classification call still returns a complete verdict instead of an error:
the fail-open verdict built from the Pattern Classifier's local evidence,
with confidence strictly below the auto-block threshold, and category other
when no local category fired. -/
theorem oracle_outage_fails_open (oracle : Nat → OracleOutcome)
    (sender : Option String) (content : String) (p : Nexura.UserPolicy)
    (hc : content ≠ "")
    (hthr : 0 < p.auto_block_threshold)
    (ho : runOracle oracle = none)
    (hm : matchOverride sender content p = .noMatch)
    (hp : ¬ mkRat 9 10 ≤ (patternClassify content).confidence) :
    classify oracle sender content p = .ok (classifyValid oracle sender content p) ∧
    (classifyValid oracle sender content p).analysis = failOpen p (patternClassify content) ∧
    (classifyValid oracle sender content p).analysis.confidence < p.auto_block_threshold ∧
    ((patternClassify content).category = .safe →
      (classifyValid oracle sender content p).analysis.category = .other) := by
  have hcv : classifyValid oracle sender content p =
      { analysis := failOpen p (patternClassify content)
        is_blocked := autoBlock p (failOpen p (patternClassify content))
        oracle_called := true } := by
    simp [classifyValid, hm, hp, ho]
  refine ⟨by simp [classify, hc], by rw [hcv], ?_, ?_⟩
  · rw [hcv]
    have h1 : (failOpen p (patternClassify content)).confidence =
        min (patternClassify content).confidence (capBelow p.auto_block_threshold) := rfl
    rw [h1]
    exact lt_of_le_of_lt (min_le_right _ _) (capBelow_lt hthr)
  · intro hsafe
    rw [hcv]
    show (failOpen p (patternClassify content)).category = .other
    simp [failOpen, hsafe]

/-- C4 witness: with the oracle timing out on both attempts and a message
with no local pattern match, a complete non-blocking verdict of category
other is still returned under the default policy. -/
theorem oracle_outage_fails_open_witness :
    classify oracleDown none "Lunch at 1pm?" defaultPolicy =
      .ok (classifyValid oracleDown none "Lunch at 1pm?" defaultPolicy) ∧
    (classifyValid oracleDown none "Lunch at 1pm?" defaultPolicy).analysis =
      failOpen defaultPolicy (patternClassify "Lunch at 1pm?") ∧
    (classifyValid oracleDown none "Lunch at 1pm?" defaultPolicy).analysis.confidence <
      defaultPolicy.auto_block_threshold ∧
    ((patternClassify "Lunch at 1pm?").category = .safe →
      (classifyValid oracleDown none "Lunch at 1pm?" defaultPolicy).analysis.category = .other) :=
  oracle_outage_fails_open oracleDown none "Lunch at 1pm?" defaultPolicy
    (by decide) (by decide) (by decide) (by decide) (by decide)

/-- The Pattern Classifier derives its recommended action from its risk
level. -/
theorem patternClassify_action_derived (t : String) :
    (patternClassify t).recommended_action =
      deriveAction (patternClassify t).risk_level := by
  unfold patternClassify
  cases strongestFired t <;> rfl

/-- A validated response has its recommended action derived from its risk
level. -/
theorem isValidResponse_action {a : Nexura.SpamAnalysis}
    (h : isValidResponse a = true) :
    a.recommended_action = deriveAction a.risk_level := by
  unfold isValidResponse at h
  simp only [Bool.and_eq_true, beq_iff_eq] at h
  exact h.2

/-- The fail-open verdict derives its recommended action from its risk
level. -/
theorem failOpen_action_derived (p : Nexura.UserPolicy)
    (pat : Nexura.SpamAnalysis) :
    (failOpen p pat).recommended_action = deriveAction (failOpen p pat).risk_level := rfl

/-- C5: every generated verdict satisfies the invariant that the action is
block only when the risk level is high or critical, unless a blacklist
override forced the block. -/
theorem block_requires_high_risk (oracle : Nat → OracleOutcome)
    (sender : Option String) (content : String) (p : Nexura.UserPolicy)
    (hb : (classifyValid oracle sender content p).analysis.recommended_action = .block) :
    (classifyValid oracle sender content p).analysis.risk_level = .high ∨
    (classifyValid oracle sender content p).analysis.risk_level = .critical ∨
    (∃ rc, matchOverride sender content p = .blacklistHit rc) := by
  cases hm : matchOverride sender content p with
  | whitelistHit =>
    have hcv : classifyValid oracle sender content p =
        { analysis := whitelistAnalysis, is_blocked := false, oracle_called := false } := by
      simp [classifyValid, hm]
    rw [hcv] at hb
    cases hb
  | blacklistHit rc =>
    exact Or.inr (Or.inr ⟨rc, rfl⟩)
  | noMatch =>
    by_cases hp : mkRat 9 10 ≤ (patternClassify content).confidence
    · have hcv : classifyValid oracle sender content p =
          { analysis := patternClassify content
            is_blocked := autoBlock p (patternClassify content)
            oracle_called := false } := by
        simp [classifyValid, hm, hp]
      rw [hcv] at hb ⊢
      rw [patternClassify_action_derived content] at hb
      rcases (deriveAction_eq_block _).mp hb with h | h
      · exact Or.inl h
      · exact Or.inr (Or.inl h)
    · cases hro : runOracle oracle with
      | some a =>
        have hcv : classifyValid oracle sender content p =
            { analysis := a, is_blocked := autoBlock p a, oracle_called := true } := by
          simp [classifyValid, hm, hp, hro]
        rw [hcv] at hb ⊢
        rw [isValidResponse_action (runOracle_valid oracle a hro)] at hb
        rcases (deriveAction_eq_block _).mp hb with h | h
        · exact Or.inl h
        · exact Or.inr (Or.inl h)
      | none =>
        have hcv : classifyValid oracle sender content p =
            { analysis := failOpen p (patternClassify content)
              is_blocked := autoBlock p (failOpen p (patternClassify content))
              oracle_called := true } := by
          simp [classifyValid, hm, hp, hro]
        rw [hcv] at hb ⊢
        rw [failOpen_action_derived p (patternClassify content)] at hb
        rcases (deriveAction_eq_block _).mp hb with h | h
        · exact Or.inl h
        · exact Or.inr (Or.inl h)

/-- C5 witness: on a concrete betting message under the default policy the
recommended action is block, and the risk level is indeed high or critical
(or an override forced it). -/
theorem block_requires_high_risk_witness :
    (classifyValid oracleDown none "bahis kazan" defaultPolicy).analysis.risk_level = .high ∨
    (classifyValid oracleDown none "bahis kazan" defaultPolicy).analysis.risk_level = .critical ∨
    (∃ rc, matchOverride none "bahis kazan" defaultPolicy = .blacklistHit rc) :=
  block_requires_high_risk oracleDown none "bahis kazan" defaultPolicy (by decide)

/-- C6 counterexample: the documented default policy (`src/docs/API.md`
lines 254-268) does not block all nine non-safe categories — promotional,
lottery, investment and other are absent from its block list, so a user with
no stored policy does not receive the nine-category default the claim
states. -/
theorem default_blocklist_not_all_nonsafe :
    Category.promotional ∉ (resolvePolicy (fun _ => none) "u1").block_categories ∧
    Category.lottery ∉ (resolvePolicy (fun _ => none) "u1").block_categories ∧
    Category.investment ∉ (resolvePolicy (fun _ => none) "u1").block_categories ∧
    Category.other ∉ (resolvePolicy (fun _ => none) "u1").block_categories := by
  decide

/-- C6 (amended): for every user identifier with no stored policy the Config
Resolver returns the documented default policy of `src/docs/API.md`:
auto_block_spam true, auto_block_threshold 0.8, block_categories betting,
phishing, scam, malware and fraud, and empty whitelist and blacklist. -/
theorem resolvePolicy_default (stored : String → Option Nexura.UserPolicy)
    (uid : String) (h : stored uid = none) :
    resolvePolicy stored uid = defaultPolicy ∧
    defaultPolicy.auto_block_spam = true ∧
    defaultPolicy.auto_block_threshold = mkRat 8 10 ∧
    defaultPolicy.block_categories =
      [.betting, .phishing, .scam, .malware, .fraud] ∧
    defaultPolicy.whitelist = [] ∧
    defaultPolicy.blacklist = [] := by
  refine ⟨?_, rfl, rfl, rfl, rfl, rfl⟩
  unfold resolvePolicy
  rw [h]
  rfl

/-- C6 witness: the resolver applied to a store with no policies returns the
documented default for a concrete user. -/
theorem resolvePolicy_default_witness :
    resolvePolicy (fun _ => none) "507f1f77bcf86cd799439011" = defaultPolicy :=
  (resolvePolicy_default (fun _ => none) "507f1f77bcf86cd799439011" rfl).1

/-- Counting a predicate and its negation over a list covers the list. -/
theorem countP_add_countP_not {α : Type} (l : List α) (q : α → Bool) :
    l.countP q + l.countP (fun a => !q a) = l.length := by
  induction l with
  | nil => rfl
  | cons x xs ih =>
    by_cases hx : q x = true <;>
      simp [List.countP_cons, hx] <;> omega

/-- Bulk analysis produces one result per request. -/
theorem bulkResults_length (oracles : Nat → Nat → OracleOutcome)
    (p : Nexura.UserPolicy) :
    ∀ (msgs : List BulkRequest) (i : Nat),
      (bulkResults oracles p msgs i).length = msgs.length := by
  intro msgs
  induction msgs with
  | nil => intro i; rfl
  | cons m rest ih => intro i; simp [bulkResults, ih]

/-- The result at each position of bulk analysis is the classification of
the request at the same position, under that position's oracle. -/
theorem bulkResults_getElem (oracles : Nat → Nat → OracleOutcome)
    (p : Nexura.UserPolicy) :
    ∀ (msgs : List BulkRequest) (i j : Nat),
      (bulkResults oracles p msgs i)[j]? =
        (msgs[j]?).map
          (fun m => classifyValid (oracles (i + j)) m.sender m.content p) := by
  intro msgs
  induction msgs with
  | nil => intro i j; simp [bulkResults]
  | cons m rest ih =>
    intro i j
    cases j with
    | zero => simp [bulkResults]
    | succ j =>
      have h := ih (i + 1) j
      simp only [bulkResults, List.getElem?_cons_succ]
      rw [h]
      have harith : i + 1 + j = i + (j + 1) := by omega
      rw [harith]

/-- C7: a bulk classification response reports total equal to the number of
requests, spam_count plus safe_count equal to total, one result per request
in input order, and each position's result depends only on that position's
request and oracle — so one message's oracle failure cannot drop or disturb
the rest of the batch. -/
theorem analyzeBulk_shape (oracles : Nat → Nat → OracleOutcome)
    (msgs : List BulkRequest) (p : Nexura.UserPolicy) :
    (analyzeBulk oracles msgs p).total = msgs.length ∧
    (analyzeBulk oracles msgs p).spam_count + (analyzeBulk oracles msgs p).safe_count =
      (analyzeBulk oracles msgs p).total ∧
    (analyzeBulk oracles msgs p).results.length = msgs.length ∧
    ∀ j : Nat,
      ((analyzeBulk oracles msgs p).results)[j]? =
        (msgs[j]?).map (fun m => classifyValid (oracles j) m.sender m.content p) := by
  refine ⟨?_, ?_, ?_, ?_⟩
  · simp only [analyzeBulk]
    exact bulkResults_length oracles p msgs 0
  · simp only [analyzeBulk]
    exact countP_add_countP_not _ _
  · simp only [analyzeBulk]
    exact bulkResults_length oracles p msgs 0
  · intro j
    simp only [analyzeBulk]
    have h := bulkResults_getElem oracles p msgs 0 j
    simpa using h

/-- C7 witness: a concrete two-message batch in which the second message's
oracle times out terminally still yields two ordered results and consistent
counts. -/
theorem analyzeBulk_shape_witness :
    (analyzeBulk (fun _ => oracleDown)
        [{ content := "bahis", sender := none },
         { content := "Lunch at 1pm?", sender := none }] defaultPolicy).total = 2 ∧
    (analyzeBulk (fun _ => oracleDown)
        [{ content := "bahis", sender := none },
         { content := "Lunch at 1pm?", sender := none }] defaultPolicy).results.length = 2 := by
  have h := analyzeBulk_shape (fun _ => oracleDown)
    [{ content := "bahis", sender := none },
     { content := "Lunch at 1pm?", sender := none }] defaultPolicy
  exact ⟨h.1, h.2.2.1⟩

/-- Overwriting the feedback of the addressed record changes no record id,
so the same id is still found. -/
theorem any_id_map_setFeedback (l : List StoredMessage) (mid : String)
    (fb : Feedback) :
    (l.map (fun m =>
        if m.id == mid then { m with user_feedback := some fb } else m)).any
      (fun m => m.id == mid) = l.any (fun m => m.id == mid) := by
  induction l with
  | nil => rfl
  | cons x xs ih =>
    simp only [List.map_cons, List.any_cons, ih]
    by_cases hx : (x.id == mid) = true
    · rw [if_pos hx]
    · rw [if_neg hx]

/-- After overwriting the feedback of the addressed record, looking that
record up yields the new feedback value. -/
theorem feedbackOf_map_setFeedback (l : List StoredMessage) (mid : String)
    (fb : Feedback) (h : l.any (fun m => m.id == mid) = true) :
    feedbackOf
      (l.map (fun m =>
        if m.id == mid then { m with user_feedback := some fb } else m)) mid =
      some (some fb) := by
  induction l with
  | nil => cases h
  | cons x xs ih =>
    by_cases hx : (x.id == mid) = true
    · simp only [List.map_cons]
      rw [if_pos hx]
      unfold feedbackOf
      have hx2 : (({ id := x.id, output := x.output, user_feedback := some fb } :
          StoredMessage).id == mid) = true := hx
      simp only [List.find?_cons, hx2]
      rfl
    · have h' : xs.any (fun m => m.id == mid) = true := by
        simpa [List.any_cons, hx] using h
      have ih' := ih h'
      simp only [List.map_cons]
      rw [if_neg hx]
      unfold feedbackOf at ih' ⊢
      have hx2 : (x.id == mid) = false := by
        simpa using hx
      simp only [List.find?_cons, hx2]
      exact ih'

/-- C8: a freshly persisted message starts with no user feedback; when the
message id exists, submitting feedback succeeds and stores the submitted
value, re-submitting overwrites it (last write wins) without error, and
neither call changes the number of stored records. -/
theorem feedback_last_write_wins (store : List StoredMessage) (mid : String)
    (fb1 fb2 : Feedback) (h : store.any (fun m => m.id == mid) = true) :
    (∀ o : ClassifyOutput, (persistMessage mid o).user_feedback = none) ∧
    ∃ s1 s2 : List StoredMessage,
      provideFeedback store mid fb1 = .ok s1 ∧
      feedbackOf s1 mid = some (some fb1) ∧
      provideFeedback s1 mid fb2 = .ok s2 ∧
      feedbackOf s2 mid = some (some fb2) ∧
      s1.length = store.length ∧
      s2.length = store.length := by
  have h1 : provideFeedback store mid fb1 =
      .ok (store.map (fun m =>
        if m.id == mid then { m with user_feedback := some fb1 } else m)) := by
    unfold provideFeedback
    rw [if_pos h]
  have hany1 : (store.map (fun m =>
      if m.id == mid then { m with user_feedback := some fb1 } else m)).any
        (fun m => m.id == mid) = true := by
    rw [any_id_map_setFeedback]
    exact h
  have h2 : provideFeedback
      (store.map (fun m =>
        if m.id == mid then { m with user_feedback := some fb1 } else m)) mid fb2 =
      .ok ((store.map (fun m =>
        if m.id == mid then { m with user_feedback := some fb1 } else m)).map
          (fun m => if m.id == mid then { m with user_feedback := some fb2 } else m)) := by
    unfold provideFeedback
    rw [if_pos hany1]
  refine ⟨fun o => rfl, _, _, h1, feedbackOf_map_setFeedback store mid fb1 h,
    h2, feedbackOf_map_setFeedback _ mid fb2 hany1, by simp, by simp⟩

/-- A sample classification output used to instantiate the feedback theorem
at a concrete input. -/
def sampleOutput : ClassifyOutput :=
  classifyValid oracleDown none "Lunch at 1pm?" defaultPolicy

/-- C8 witness: on a store holding one concrete message, submitting
incorrect and then correct succeeds, ends with correct stored, and leaves
one record. -/
theorem feedback_last_write_wins_witness :
    (∀ o : ClassifyOutput, (persistMessage "m1" o).user_feedback = none) ∧
    ∃ s1 s2 : List StoredMessage,
      provideFeedback [persistMessage "m1" sampleOutput] "m1" .incorrect = .ok s1 ∧
      feedbackOf s1 "m1" = some (some .incorrect) ∧
      provideFeedback s1 "m1" .correct = .ok s2 ∧
      feedbackOf s2 "m1" = some (some .correct) ∧
      s1.length = [persistMessage "m1" sampleOutput].length ∧
      s2.length = [persistMessage "m1" sampleOutput].length :=
  feedback_last_write_wins [persistMessage "m1" sampleOutput] "m1"
    .incorrect .correct (by decide)

/-- Filtering by a weaker predicate keeps at least as many elements. -/
theorem length_filter_le_of_imp {α : Type} (l : List α) (p q : α → Bool)
    (h : ∀ a ∈ l, p a = true → q a = true) :
    (l.filter p).length ≤ (l.filter q).length := by
  induction l with
  | nil => simp
  | cons x xs ih =>
    have hx := h x (List.mem_cons_self x xs)
    have ih' := ih (fun a ha hpa => h a (List.mem_cons_of_mem x ha) hpa)
    by_cases hp : p x = true
    · have hq := hx hp
      simp [List.filter_cons, hp, hq]
      omega
    · by_cases hq : q x = true <;> simp [List.filter_cons, hp, hq] <;> omega

/-- C9: a DetectedSMS record built by handleIncomingSMS is blocked only if
its analysis reports spam, and over any history of such records the blocked
count is at most the spam count. -/
theorem blocked_le_spam (history : List DetectedSMS)
    (hprod : ∀ sms ∈ history, sms.blocked = true →
      sms.analysis.analysis.is_spam = true) :
    (∀ (i s c t : String) (a : ClientMessage) (ab : Bool),
      (SMSDetectionService.buildDetectedSMS i s c t a ab).blocked = true →
        a.analysis.is_spam = true) ∧
    SMSDetectionService.getBlockedCount history ≤
      SMSDetectionService.getSpamCount history := by
  constructor
  · intro i s c t a ab hb
    have hb' : (ab && a.analysis.is_spam) = true := hb
    exact (Bool.and_eq_true _ _).mp hb' |>.2
  · exact length_filter_le_of_imp history _ _ hprod

/-- A sample analyzed client message used to instantiate the history
invariant at a concrete input. -/
def sampleMessage : ClientMessage :=
  { id := "m1"
    content := "bahis"
    sender := none
    source := "sms_auto"
    analysis := patternClassify "bahis"
    is_blocked := true
    user_feedback := none }

/-- C9 witness: on a concrete one-record history produced by the service
with auto-block enabled, the blocked count is at most the spam count. -/
theorem blocked_le_spam_witness :
    SMSDetectionService.getBlockedCount
        [SMSDetectionService.buildDetectedSMS "sms_1" "+905550001122" "bahis"
          "2024-01-15T10:35:00Z" sampleMessage true] ≤
      SMSDetectionService.getSpamCount
        [SMSDetectionService.buildDetectedSMS "sms_1" "+905550001122" "bahis"
          "2024-01-15T10:35:00Z" sampleMessage true] :=
  (blocked_le_spam
    [SMSDetectionService.buildDetectedSMS "sms_1" "+905550001122" "bahis"
      "2024-01-15T10:35:00Z" sampleMessage true] (by decide)).2

/-- C10: both spam-score-to-risk-label maps are monotone — for scores
s1 at most s2 the label of s1 never ranks above the label of s2, with
CallDetectionService ranking MINIMAL, LOW, MODERATE, HIGH and TopSpamScreen
ranking Low, High, Critical — and TopSpamScreen never produces a Medium
label. -/
theorem riskLevel_monotone :
    (∀ s1 s2 : ℚ, s1 ≤ s2 →
      callRiskRank (CallDetectionService.getRiskLevel s1) ≤
        callRiskRank (CallDetectionService.getRiskLevel s2) ∧
      topRiskRank (TopSpamScreen.getRiskLevel s1) ≤
        topRiskRank (TopSpamScreen.getRiskLevel s2)) ∧
    (∀ s : ℚ, TopSpamScreen.getRiskLevel s ≠ "Medium") := by
  constructor
  · intro s1 s2 h
    constructor
    · unfold CallDetectionService.getRiskLevel
      split_ifs <;> first | decide | linarith
    · unfold TopSpamScreen.getRiskLevel
      split_ifs <;> first | decide | linarith
  · intro s
    unfold TopSpamScreen.getRiskLevel
    split_ifs <;> decide

/-- C10 witness: the monotonicity instantiated at the concrete scores 10
and 80. -/
theorem riskLevel_monotone_witness :
    callRiskRank (CallDetectionService.getRiskLevel 10) ≤
      callRiskRank (CallDetectionService.getRiskLevel 80) ∧
    topRiskRank (TopSpamScreen.getRiskLevel 10) ≤
      topRiskRank (TopSpamScreen.getRiskLevel 80) :=
  riskLevel_monotone.1 10 80 (by norm_num)

end Nexura
